import Mathlib

/-
Verification of the pupper-app backend validation layer.

Shallow embedding of `src/backend/app/bedrock_validator.py` and the
relevant endpoints of `src/backend/app/main.py`.  The external model
(Amazon Bedrock) is represented by explicit environment parameters: each
outbound call's combined "call + JSON parse" outcome is a value of an
`Except`/reply type supplied to the embedded function, mirroring the
`try/except` structure of the Python source.  Floats are modelled as
rationals; Python dicts as association lists.
-/

/-- Python whitespace test used by `str.strip()` (ASCII subset). -/
def isWs (c : Char) : Bool := c = ' ' || c = '\t' || c = '\n' || c = '\r'

/-- Model of Python `str.strip()` on a list of characters: drop leading
and trailing whitespace. -/
def pyStrip (s : List Char) : List Char :=
  (((s.dropWhile isWs).reverse).dropWhile isWs).reverse

/-- `str.strip()` on Lean strings. -/
def pyStripS (s : String) : String := ⟨pyStrip s.data⟩

/-- Field values flowing through the validator: strings (names, states,
colors, ISO dates, ...) or numbers (weights, confidences). -/
inductive PVal where
  | vStr (s : String)
  | vNum (q : ℚ)
  | vBool (b : Bool)
  deriving DecidableEq, Repr

/-- `ValidationResult` dataclass of `bedrock_validator.py` (lines 19-32).
`__post_init__` replaces a `None` warnings list by `[]`; the embedding
stores the list directly. -/
structure ValidationResult where
  value : Option PVal
  is_valid : Bool
  original_value : Option PVal
  confidence : ℚ
  error_message : Option String
  warnings : List String
  model_used : Option String
  deriving DecidableEq, Repr

/-- The parsed JSON reply of one single-field validation call.  Each key
is optional because the Python source reads it with `dict.get` and a
default (`result.get('is_valid', False)`, `result.get('confidence', 0.0)`,
`result.get('explanation', '')`). -/
structure FieldReply where
  value : Option PVal
  confidence : Option ℚ
  explanation : Option String
  is_valid : Option Bool
  deriving DecidableEq, Repr

/-- `[result.get('explanation', '')] if result.get('explanation') else []`:
Python truthiness makes a missing or empty explanation yield `[]`. -/
def pyWarnings (explanation : Option String) : List String :=
  match explanation with
  | some e => if e = "" then [] else [e]
  | none => []

/-- Model identifier recorded in successful results. -/
def claudeModel : String := "Claude 3.7 Sonnet"

/-- `clean_weight_with_bedrock` (lines 84-155).  First component counts
calls made to the external model; `env` is the combined outcome of the
Bedrock call and the `json.loads` of its reply text (the `try` body),
`.error e` covering any exception caught by the `except` clause. -/
def clean_weight_with_bedrock (weight_input : Option String)
    (env : Except String FieldReply) : Nat × ValidationResult :=
  match weight_input with
  | none => (0, ⟨none, true, none, 1, none, [], none⟩)
  | some w =>
    let original_value := pyStripS w
    match env with
    | .ok r =>
      (1, ⟨r.value, r.is_valid.getD false, some (.vStr original_value),
           r.confidence.getD 0, none, pyWarnings r.explanation, some claudeModel⟩)
    | .error e =>
      (1, ⟨none, false, some (.vStr original_value),
           0, some ("Bedrock parsing failed: " ++ e), [], none⟩)

/-- Reply of the date-validation call: `date` is the raw string under the
`'date'` key, read with `result.get('date')`. -/
structure DateReply where
  date : Option String
  confidence : Option ℚ
  explanation : Option String
  is_valid : Option Bool
  deriving DecidableEq, Repr

/-- `clean_date_with_bedrock` (lines 157-232).  `strptimeIso` models
`datetime.strptime(_, '%Y-%m-%d').date()`: `none` is the `ValueError`
branch, which forces `is_valid` to `False`.  Python truthiness on
`result.get('date')` skips parsing for a missing or empty date string. -/
def clean_date_with_bedrock (date_input : Option String)
    (env : Except String DateReply) (strptimeIso : String → Option String) :
    Nat × ValidationResult :=
  match date_input with
  | none => (0, ⟨none, true, none, 1, none, [], none⟩)
  | some d =>
    let original_value := pyStripS d
    match env with
    | .ok r =>
      let parsed : Option String :=
        match r.date with
        | some ds => if ds = "" then none else strptimeIso ds
        | none => none
      let valid : Bool :=
        match r.date with
        | some ds =>
          if ds = "" then r.is_valid.getD false
          else match strptimeIso ds with
               | some _ => r.is_valid.getD false
               | none => false
        | none => r.is_valid.getD false
      (1, ⟨parsed.map .vStr, valid, some (.vStr original_value),
           r.confidence.getD 0, none, pyWarnings r.explanation, some claudeModel⟩)
    | .error e =>
      (1, ⟨none, false, some (.vStr original_value),
           0, some ("Bedrock parsing failed: " ++ e), [], none⟩)

/-- `clean_state_with_bedrock` (lines 234-299); identical shape to the
weight validator, reading the `'state'` key of the reply. -/
def clean_state_with_bedrock (state_input : Option String)
    (env : Except String FieldReply) : Nat × ValidationResult :=
  match state_input with
  | none => (0, ⟨none, true, none, 1, none, [], none⟩)
  | some s =>
    let original_value := pyStripS s
    match env with
    | .ok r =>
      (1, ⟨r.value, r.is_valid.getD false, some (.vStr original_value),
           r.confidence.getD 0, none, pyWarnings r.explanation, some claudeModel⟩)
    | .error e =>
      (1, ⟨none, false, some (.vStr original_value),
           0, some ("Bedrock parsing failed: " ++ e), [], none⟩)

/-- `clean_color_with_bedrock` (lines 301-370). -/
def clean_color_with_bedrock (color_input : Option String)
    (env : Except String FieldReply) : Nat × ValidationResult :=
  match color_input with
  | none => (0, ⟨none, true, none, 1, none, [], none⟩)
  | some s =>
    let original_value := pyStripS s
    match env with
    | .ok r =>
      (1, ⟨r.value, r.is_valid.getD false, some (.vStr original_value),
           r.confidence.getD 0, none, pyWarnings r.explanation, some claudeModel⟩)
    | .error e =>
      (1, ⟨none, false, some (.vStr original_value),
           0, some ("Bedrock parsing failed: " ++ e), [], none⟩)

/-- `validate_dog_breed_with_bedrock` (lines 372-439), reading the
`'breed'` key; error prose differs ("Bedrock validation failed"). -/
def validate_dog_breed_with_bedrock (species_input : Option String)
    (env : Except String FieldReply) : Nat × ValidationResult :=
  match species_input with
  | none => (0, ⟨none, true, none, 1, none, [], none⟩)
  | some s =>
    let original_value := pyStripS s
    match env with
    | .ok r =>
      (1, ⟨r.value, r.is_valid.getD false, some (.vStr original_value),
           r.confidence.getD 0, none, pyWarnings r.explanation, some claudeModel⟩)
    | .error e =>
      (1, ⟨none, false, some (.vStr original_value),
           0, some ("Bedrock validation failed: " ++ e), [], none⟩)

/-- `clean_text_field_with_bedrock` (lines 441-498); the field name and
maximum length only shape the instruction sent to the model, which the
environment absorbs. -/
def clean_text_field_with_bedrock (text_input : Option String)
    (field_name : String) (max_length : Nat)
    (env : Except String FieldReply) : Nat × ValidationResult :=
  match text_input with
  | none => (0, ⟨none, true, none, 1, none, [], none⟩)
  | some s =>
    let original_value := pyStripS s
    match env with
    | .ok r =>
      (1, ⟨r.value, r.is_valid.getD false, some (.vStr original_value),
           r.confidence.getD 0, none, pyWarnings r.explanation, some claudeModel⟩)
    | .error e =>
      (1, ⟨none, false, some (.vStr original_value),
           0, some ("Bedrock cleaning failed: " ++ e), [], none⟩)

/-- The short-circuit result every validator returns on null input:
`ValidationResult(None, True, None, confidence=1.0)`. -/
def nullShortCircuit : ValidationResult := ⟨none, true, none, 1, none, [], none⟩

/-- Empty sub-result used when the batch reply lacks a field:
`result.get(field, {})`. -/
def emptyFieldReply : FieldReply := ⟨none, none, none, none⟩

/-- The fixed field list iterated by the batch validator's success path
(lines 537-539). -/
def batchFields : List String :=
  ["name", "shelter_name", "city", "state", "species", "description",
   "color", "weight", "birthday", "shelter_entry_date"]

/-- Python `data.get(field)` on a dict modelled as an association list
whose stored values are themselves optional (a key may be present and
bound to `None`). -/
def pyDictGet (data : List (String × Option PVal)) (field : String) : Option PVal :=
  match data.find? (fun p => p.1 = field) with
  | some p => p.2
  | none => none

/-- `validate_dog_data_batch_with_bedrock` (lines 500-558).  `env` is the
combined outcome of the single Bedrock call and the `json.loads` of its
reply, the parsed reply being a per-field lookup; the first component
counts external calls.  On success one `ValidationResult` is materialised
per field of the fixed `batchFields` list; on failure the fallback
iterates over the keys of the input `data` dict instead. -/
def validate_dog_data_batch_with_bedrock (data : List (String × Option PVal))
    (env : Except String (String → Option FieldReply)) :
    Nat × List (String × ValidationResult) :=
  match env with
  | .ok result =>
    (1, batchFields.map (fun field =>
      let fr := (result field).getD emptyFieldReply
      (field, ⟨fr.value, fr.is_valid.getD false, pyDictGet data field,
               fr.confidence.getD 0, none, pyWarnings fr.explanation,
               some claudeModel⟩)))
  | .error e =>
    (1, data.map (fun p =>
      (p.1, ⟨none, false, p.2, 0,
             some ("Bedrock batch validation failed: " ++ e), [], none⟩)))

/-- `get_cleaned_data` (lines 560-571): keep a field exactly when its
result `is_valid` and its value is not `None`. -/
def get_cleaned_data (validation_results : List (String × ValidationResult)) :
    List (String × PVal) :=
  validation_results.filterMap (fun p =>
    match p.2.value with
    | some v => if p.2.is_valid then some (p.1, v) else none
    | none => none)

/-- Outcome of one `invoke_model` attempt as seen by the retry loop of
`_call_bedrock_converse`: a parsed reply body, a `ThrottlingException`,
or any other exception (re-raised immediately). -/
inductive BedrockOutcome where
  | success (reply : String)
  | throttled
  | failure (err : String)
  deriving DecidableEq, Repr

/-- `wait = 0.5 * (2 ** attempt)` (line 76), in seconds. -/
def backoffDelay (attempt : Nat) : ℚ := (1 / 2) * 2 ^ attempt

/-- Terminal error raised when every attempt was throttled (line 82). -/
def throttlingExceededMsg : String := "Bedrock API throttling: max retries exceeded"

/-- The `for attempt in range(max_retries)` loop of `_call_bedrock_converse`
(lines 67-82), with the per-attempt outcome supplied by `outcomes`.
Returns the call's result together with the list of sleeps performed, in
order. -/
def callBedrockLoop (outcomes : Nat → BedrockOutcome) (attempt fuel : Nat) :
    Except String String × List ℚ :=
  match fuel with
  | 0 => (.error throttlingExceededMsg, [])
  | fuel' + 1 =>
    match outcomes attempt with
    | .success r => (.ok r, [])
    | .failure e => (.error e, [])
    | .throttled =>
      let rest := callBedrockLoop outcomes (attempt + 1) fuel'
      (rest.1, backoffDelay attempt :: rest.2)

/-- Default of the `max_retries` parameter (line 57). -/
def defaultMaxRetries : Nat := 5

/-- `_call_bedrock_converse` (lines 56-82). -/
def call_bedrock_converse (outcomes : Nat → BedrockOutcome) (max_retries : Nat) :
    Except String String × List ℚ :=
  callBedrockLoop outcomes 0 max_retries

/-- `str.startswith` on character lists. -/
def startsWithL (p s : List Char) : Bool := s.take p.length == p

/-- `str.endswith` on character lists. -/
def endsWithL (p s : List Char) : Bool := s.reverse.take p.length == p.reverse

/-- Python `s[:-n]`: drop the last `n` characters. -/
def dropRightL (n : Nat) (l : List Char) : List Char := l.take (l.length - n)

/-- The opening Markdown code-fence marker checked by the source. -/
def fenceJson : List Char := "```json".data

/-- The closing (or bare) code-fence marker. -/
def fenceBare : List Char := "```".data

/-- The string handed to `json.loads` in `clean_weight_with_bedrock`
(lines 134-137): the reply text `content` is parsed directly, with no
preprocessing whatsoever. -/
def weightParseInput (content : List Char) : List Char := content

/-- The string handed to `json.loads` in
`validate_dog_data_batch_with_bedrock` (lines 534-535): again the raw
reply text, unpreprocessed. -/
def batchParseInput (content : List Char) : List Char := content

/-- The string handed to `json.loads` in `match_user_to_dogs`
(lines 938-946): the reply text is stripped, a leading fence marker and
a trailing fence marker are removed, and the remainder is stripped. -/
def matchParseInput (content : List Char) : List Char :=
  let t0 := pyStrip content
  let t1 := if startsWithL fenceJson t0 then t0.drop 7 else t0
  let t2 := if endsWithL fenceBare t1 then dropRightL 3 t1 else t1
  pyStrip t2

/-- A row of the `user_wags` table (`models.py` lines 57-64). -/
structure UserWagRow where
  user_id : String
  dog_id : String
  type : String
  deriving DecidableEq, Repr

/-- Projection of a `dogs` row to the columns the wag/growl handlers
read or write (`models.py`: `dog_id`, `wags`, `growls`; the remaining
columns do not participate in these four endpoints). -/
structure DogRow where
  dog_id : String
  wags : Int
  growls : Int
  deriving DecidableEq, Repr

/-- The database state visible to the engagement endpoints. -/
structure EngDb where
  dogs : List DogRow
  user_wags : List UserWagRow
  deriving DecidableEq, Repr

/-- An `HTTPException(status_code, detail)`. -/
structure HttpError where
  status : Nat
  detail : String
  deriving DecidableEq, Repr

/-- The JSON body returned by a successful engagement endpoint. -/
structure WagResponse where
  message : String
  wags : Int
  growls : Int
  deriving DecidableEq, Repr

/-- `wag_dog` (`main.py` lines 1046-1078).  A raised `HTTPException`
is the `.error` case and leaves the database untouched (the handler
raises before any mutation is committed). -/
def wag_dog (dog_id : String) (user : Option String) (db : EngDb) :
    Except HttpError (EngDb × WagResponse) :=
  match db.dogs.find? (fun d => d.dog_id == dog_id) with
  | none => .error ⟨404, "Dog not found"⟩
  | some dog =>
    if user = none ∨ user = some "" then
      .error ⟨400, "User ID (sub) not found in token."⟩
    else
      let user_id := user.getD ""
      match db.user_wags.find?
          (fun w => w.user_id == user_id && w.dog_id == dog_id) with
      | some existing_action =>
        if existing_action.type == "wag" then
          .error ⟨400, "You have already wagged this dog."⟩
        else
          .error ⟨400,
            "You have already growled this dog. You cannot wag a dog you\x27ve growled."⟩
      | none =>
        let dogs := db.dogs.map (fun d =>
          if d.dog_id == dog_id then ⟨d.dog_id, d.wags + 1, d.growls⟩ else d)
        .ok (⟨dogs, db.user_wags ++ [⟨user_id, dog_id, "wag"⟩]⟩,
             ⟨"Wag given to " ++ dog_id, dog.wags + 1, dog.growls⟩)

/-- `unwag_dog` (lines 1081-1099).  Unlike `wag_dog` the handler does
not reject a missing user id; a `None` id simply matches no row. -/
def unwag_dog (dog_id : String) (user : Option String) (db : EngDb) :
    Except HttpError (EngDb × WagResponse) :=
  match db.dogs.find? (fun d => d.dog_id == dog_id) with
  | none => .error ⟨404, "Dog not found"⟩
  | some dog =>
    match db.user_wags.find?
        (fun w => some w.user_id == user && w.dog_id == dog_id && w.type == "wag") with
    | none => .error ⟨400, "You haven\x27t wagged this dog."⟩
    | some _ =>
      let user_wags := db.user_wags.eraseP
        (fun w => some w.user_id == user && w.dog_id == dog_id && w.type == "wag")
      let newWags := max 0 (dog.wags - 1)
      let dogs := db.dogs.map (fun d =>
        if d.dog_id == dog_id then ⟨d.dog_id, newWags, d.growls⟩ else d)
      .ok (⟨dogs, user_wags⟩, ⟨"Wag removed from " ++ dog_id, newWags, dog.growls⟩)

/-- `growl_dog` (lines 1102-1126). -/
def growl_dog (dog_id : String) (user : Option String) (db : EngDb) :
    Except HttpError (EngDb × WagResponse) :=
  match db.dogs.find? (fun d => d.dog_id == dog_id) with
  | none => .error ⟨404, "Dog not found"⟩
  | some dog =>
    if user = none ∨ user = some "" then
      .error ⟨400, "User ID (sub) not found in token."⟩
    else
      let user_id := user.getD ""
      match db.user_wags.find?
          (fun w => w.user_id == user_id && w.dog_id == dog_id) with
      | some existing_action =>
        if existing_action.type == "growl" then
          .error ⟨400, "You have already growled this dog."⟩
        else
          .error ⟨400,
            "You have already wagged this dog. You cannot growl a dog you\x27ve wagged."⟩
      | none =>
        let dogs := db.dogs.map (fun d =>
          if d.dog_id == dog_id then ⟨d.dog_id, d.wags, d.growls + 1⟩ else d)
        .ok (⟨dogs, db.user_wags ++ [⟨user_id, dog_id, "growl"⟩]⟩,
             ⟨"Growl given to " ++ dog_id, dog.wags, dog.growls + 1⟩)

/-- `ungrowl_dog` (lines 1129-1147). -/
def ungrowl_dog (dog_id : String) (user : Option String) (db : EngDb) :
    Except HttpError (EngDb × WagResponse) :=
  match db.dogs.find? (fun d => d.dog_id == dog_id) with
  | none => .error ⟨404, "Dog not found"⟩
  | some dog =>
    match db.user_wags.find?
        (fun w => some w.user_id == user && w.dog_id == dog_id && w.type == "growl") with
    | none => .error ⟨400, "You haven\x27t growled this dog."⟩
    | some _ =>
      let user_wags := db.user_wags.eraseP
        (fun w => some w.user_id == user && w.dog_id == dog_id && w.type == "growl")
      let newGrowls := max 0 (dog.growls - 1)
      let dogs := db.dogs.map (fun d =>
        if d.dog_id == dog_id then ⟨d.dog_id, d.wags, newGrowls⟩ else d)
      .ok (⟨dogs, user_wags⟩, ⟨"Growl removed from " ++ dog_id, dog.wags, newGrowls⟩)

/-- An abstract Fernet instance: symmetric encryption with decryption
recovering the plaintext (Fernet tokens are never empty — they always
carry a version byte, timestamp and HMAC). -/
structure FernetScheme where
  enc : String → String
  dec : String → Option String
  dec_enc : ∀ s, dec (enc s) = some s
  enc_ne_empty : ∀ s, enc s ≠ ""

/-- `encrypt_name` (`main.py` lines 88-91): identity when no key is
configured or the name is falsy. -/
def encrypt_name (fernet : Option FernetScheme) (name : String) : String :=
  match fernet with
  | none => name
  | some f => if name = "" then name else f.enc name

/-- `decrypt_name` (lines 94-100): identity when no key is configured or
the name is falsy; the `try/except` returns the input unchanged when
decryption fails. -/
def decrypt_name (fernet : Option FernetScheme) (name : String) : String :=
  match fernet with
  | none => name
  | some f =>
    if name = "" then name
    else
      match f.dec name with
      | some plain => plain
      | none => name

/-- Breed names accepted by the simple species gate (line 414 / 1586). -/
def labradorNames : List String := ["labrador retriever", "labrador", "lab"]

/-- `species.lower().strip()`. -/
def pyLowerStrip (s : String) : String := ⟨pyStrip (s.data.map Char.toLower)⟩

/-- The species gate of the create endpoints:
`if species and species.lower().strip() not in [...]` — Python truthiness
tests the string before lowering/stripping. -/
def speciesGateRejects (species : Option String) : Bool :=
  match species with
  | none => false
  | some s => (s != "") && !(labradorNames.contains (pyLowerStrip s))

/-- The dict comprehension
`{k: v for k, v in dog_data.items() if v is not None and v != ''}`. -/
def simpleCleaned (dog_data : List (String × Option String)) :
    List (String × String) :=
  dog_data.filterMap (fun p =>
    match p.2 with
    | some v => if v = "" then none else some (p.1, v)
    | none => none)

/-- `cleaned_data.get(k)`. -/
def lookupStr (l : List (String × String)) (k : String) : Option String :=
  (l.find? (fun p => p.1 == k)).map Prod.snd

/-- The `models.Dog` row constructed by the create endpoints. -/
structure DogRecord where
  dog_id : String
  breed_id : Option Int
  name : Option String
  shelter_name : Option String
  city : Option String
  state : Option String
  species : Option String
  shelter_entry_date : Option String
  description : Option String
  birthday : Option String
  weight : Option String
  color : Option String
  sentiment_tags : Option String
  original_key : String
  resized_400_key : String
  thumbnail_50_key : String
  deriving DecidableEq, Repr

/-- Side effects performed by a create endpoint, in program order. -/
inductive DogEffect where
  | s3Upload (key : String)
  | dbAdd (dog : DogRecord)
  | snsPublish (event_type : String)
  deriving DecidableEq, Repr

/-- Responses of the create endpoints. -/
inductive CreateResponse where
  | invalidBreed (original_species : Option String)
  | notLabradorImage
  | invalidImageData
  | created (dog_id : String) (cleaned : List (String × String))
  deriving DecidableEq, Repr

/-- Environment of `create_dog_with_image`: the Rekognition verdict and
the sentiment analyses (`some tags` on success, `none` on failure). -/
structure ImageEnv where
  rekognition_is_labrador : Bool
  image_sentiment : Option (List String)
  description_sentiment : Option (List String)
  deriving DecidableEq, Repr

/-- `','.join(tags)` with the description fallback (lines 461-476). -/
def computeSentimentTags (image_sentiment description_sentiment : Option (List String))
    (cleaned : List (String × String)) : Option String :=
  match image_sentiment with
  | some tags => some (String.intercalate "," tags)
  | none =>
    match lookupStr cleaned "description" with
    | some _ =>
      match description_sentiment with
      | some tags => some (String.intercalate "," tags)
      | none => none
    | none => none

/-- `create_dog_with_image` (lines 371-517), with the generated UUID as
a parameter and external services in `env`.  Returns the response and
the list of persistence/storage side effects in program order (an
`Image.open` failure would raise an uncaught exception before any side
effect; it is outside the modelled paths). -/
def create_dog_with_image (dog_id : String) (breed_id : Option Int)
    (name shelter_name city state species shelter_entry_date description
     birthday weight color : Option String)
    (fernet : Option FernetScheme) (env : ImageEnv) :
    CreateResponse × List DogEffect :=
  let dog_data : List (String × Option String) :=
    [("name", name), ("shelter_name", shelter_name), ("city", city),
     ("state", state), ("species", species), ("description", description),
     ("color", color), ("weight", weight), ("birthday", birthday),
     ("shelter_entry_date", shelter_entry_date)]
  let cleaned_data := simpleCleaned dog_data
  if speciesGateRejects species then (.invalidBreed species, [])
  else if !env.rekognition_is_labrador then (.notLabradorImage, [])
  else
    let original_key := dog_id ++ "/original.jpg"
    let resized_400_key := dog_id ++ "/resized_400.png"
    let thumbnail_50_key := dog_id ++ "/thumbnail_50.png"
    let sentiment_tags :=
      computeSentimentTags env.image_sentiment env.description_sentiment cleaned_data
    let dog : DogRecord :=
      ⟨dog_id, breed_id,
       (lookupStr cleaned_data "name").map (encrypt_name fernet),
       lookupStr cleaned_data "shelter_name", lookupStr cleaned_data "city",
       lookupStr cleaned_data "state", lookupStr cleaned_data "species",
       lookupStr cleaned_data "shelter_entry_date",
       lookupStr cleaned_data "description", lookupStr cleaned_data "birthday",
       lookupStr cleaned_data "weight", lookupStr cleaned_data "color",
       sentiment_tags, original_key, resized_400_key, thumbnail_50_key⟩
    (.created dog_id cleaned_data,
     [.s3Upload original_key, .s3Upload resized_400_key,
      .s3Upload thumbnail_50_key, .dbAdd dog, .snsPublish "dog_created"])

/-- Environment of `create_dog_with_generated_image`: outcome of the
base64 decode / `Image.open`, and the sentiment analyses. -/
structure GenImageEnv where
  decode_ok : Bool
  image_sentiment : Option (List String)
  description_sentiment : Option (List String)
  deriving DecidableEq, Repr

/-- `create_dog_with_generated_image` (lines 1548-1661): same species
gate; base64 decode failure is a 400; no Rekognition check and no event
publication. -/
def create_dog_with_generated_image (dog_id : String) (breed_id : Option Int)
    (name shelter_name city state species shelter_entry_date description
     birthday weight color : Option String)
    (fernet : Option FernetScheme) (env : GenImageEnv) :
    CreateResponse × List DogEffect :=
  let dog_data : List (String × Option String) :=
    [("name", name), ("shelter_name", shelter_name), ("city", city),
     ("state", state), ("species", species), ("description", description),
     ("color", color), ("weight", weight), ("birthday", birthday),
     ("shelter_entry_date", shelter_entry_date)]
  let cleaned_data := simpleCleaned dog_data
  if speciesGateRejects species then (.invalidBreed species, [])
  else if !env.decode_ok then (.invalidImageData, [])
  else
    let original_key := dog_id ++ "/original.jpg"
    let resized_400_key := dog_id ++ "/resized_400.png"
    let thumbnail_50_key := dog_id ++ "/thumbnail_50.png"
    let sentiment_tags :=
      computeSentimentTags env.image_sentiment env.description_sentiment cleaned_data
    let dog : DogRecord :=
      ⟨dog_id, breed_id,
       (lookupStr cleaned_data "name").map (encrypt_name fernet),
       lookupStr cleaned_data "shelter_name", lookupStr cleaned_data "city",
       lookupStr cleaned_data "state", lookupStr cleaned_data "species",
       lookupStr cleaned_data "shelter_entry_date",
       lookupStr cleaned_data "description", lookupStr cleaned_data "birthday",
       lookupStr cleaned_data "weight", lookupStr cleaned_data "color",
       sentiment_tags, original_key, resized_400_key, thumbnail_50_key⟩
    (.created dog_id cleaned_data,
     [.s3Upload original_key, .s3Upload resized_400_key,
      .s3Upload thumbnail_50_key, .dbAdd dog])

/-- Responses of the batch-validation test endpoint. -/
inductive ValidateResponse where
  | invalidBreed (original_species : Option PVal) (details : Option String)
  | ok (cleaned : List (String × PVal))
  deriving DecidableEq, Repr

/-- `test_validate_dog_data` (`main.py` lines 129-206): run the batch
validator, aggregate the cleaned record, then let the species result's
`is_valid` flag gate the outcome.  The endpoint performs no persistence
or storage side effect on any path. -/
def test_validate_dog_data (dog_data : List (String × Option PVal))
    (env : Except String (String → Option FieldReply)) : ValidateResponse :=
  let validation_results := (validate_dog_data_batch_with_bedrock dog_data env).2
  let cleaned_data := get_cleaned_data validation_results
  match validation_results.find? (fun p => p.1 == "species") with
  | some p =>
    if p.2.is_valid then .ok cleaned_data
    else .invalidBreed p.2.original_value p.2.error_message
  | none => .ok cleaned_data

/-- A concrete fenced, otherwise well-formed JSON reply. -/
def fencedNullReply : List Char := "```json\nnull\n```".data

/-- Toy encryption witnessing the abstract Fernet interface: prepend a
marker character. -/
def toyEnc (s : String) : String := "E" ++ s

/-- Toy decryption: strip the marker, fail otherwise. -/
def toyDec (s : String) : Option String :=
  match s.data with
  | 'E' :: rest => some (String.mk rest)
  | _ => none

/-- The toy Fernet instance (round-trip and non-emptiness inline). -/
def toyFernet : FernetScheme :=
  ⟨toyEnc, toyDec,
   fun s => by
     have hdata : (toyEnc s).data = 'E' :: s.data := by
       unfold toyEnc; rw [String.data_append]; rfl
     unfold toyDec
     rw [hdata]
     rfl,
   fun s => by
     intro h
     have hdata : (toyEnc s).data = 'E' :: s.data := by
       unfold toyEnc; rw [String.data_append]; rfl
     have h2 : ('E' :: s.data : List Char) = [] := by rw [← hdata, h]
     cases h2⟩

/-- Sample validation results for exercising the aggregator. -/
def c3SampleResults : List (String × ValidationResult) :=
  [("weight", ⟨some (.vNum 32), true, some (.vStr "32 pounds"), 9 / 10, none, [],
    some claudeModel⟩),
   ("state", ⟨none, false, some (.vStr "zz"), 0, some "bad", [], none⟩)]

/-- Two throttles, then success. -/
def c4OutcomesA : Nat → BedrockOutcome :=
  fun i => if i < 2 then .throttled else .success "reply"

/-- Immediate non-throttling failure. -/
def c4OutcomesB : Nat → BedrockOutcome :=
  fun i => if i = 0 then .failure "boom" else .success "reply"

/-- Unbounded throttling. -/
def c4OutcomesC : Nat → BedrockOutcome := fun _ => .throttled

/-- A record whose species the model rejects. -/
def c5Data : List (String × Option PVal) := [("species", some (.vStr "Poodle"))]

/-- A parsed batch reply marking only the species field (as invalid). -/
def c5Reply : String → Option FieldReply :=
  fun fld => if fld = "species" then some ⟨none, some 0, none, some false⟩ else none

/-- A database with an existing wag by u1 on d1. -/
def c7Db : EngDb := ⟨[⟨"d1", 3, 1⟩], [⟨"u1", "d1", "wag"⟩]⟩

/-- A database with no engagement actions. -/
def c8Db : EngDb := ⟨[⟨"d1", 0, 0⟩], []⟩

/-- C1: for every field validator, a null raw input short-circuits to the
valid/null/confidence-1 result with no external call. -/
theorem C1_null_input_short_circuits
    (envF : Except String FieldReply) (envD : Except String DateReply)
    (strptimeIso : String → Option String)
    (field_name : String) (max_length : Nat) :
    clean_weight_with_bedrock none envF = (0, nullShortCircuit)
    ∧ clean_date_with_bedrock none envD strptimeIso = (0, nullShortCircuit)
    ∧ clean_state_with_bedrock none envF = (0, nullShortCircuit)
    ∧ clean_color_with_bedrock none envF = (0, nullShortCircuit)
    ∧ validate_dog_breed_with_bedrock none envF = (0, nullShortCircuit)
    ∧ clean_text_field_with_bedrock none field_name max_length envF = (0, nullShortCircuit) := by
  exact ⟨rfl, rfl, rfl, rfl, rfl, rfl⟩

/-- Association lookup is unique when the keys are nodup. -/
theorem assoc_value_unique {α β : Type} [DecidableEq α] (l : List (α × β))
    (hnd : (l.map Prod.fst).Nodup) {a : α} {b b' : β}
    (h1 : (a, b) ∈ l) (h2 : (a, b') ∈ l) : b = b' := by
  induction l with
  | nil => cases h1
  | cons p t ih =>
    simp only [List.map_cons, List.nodup_cons] at hnd
    rcases List.mem_cons.mp h1 with h1 | h1 <;>
      rcases List.mem_cons.mp h2 with h2 | h2
    · exact (Prod.ext_iff.mp (h1.trans h2.symm)).2
    · exfalso; apply hnd.1; rw [← h1]; exact List.mem_map.mpr ⟨(a, b'), h2, rfl⟩
    · exfalso; apply hnd.1; rw [← h2]; exact List.mem_map.mpr ⟨(a, b), h1, rfl⟩
    · exact ih hnd.2 h1 h2

/-- C2: when the single batch call (or its parse) fails, every field of
the input record is marked invalid with a null value, the raw input as
`original_value`, and one shared non-null error message; the output keys
are exactly the input keys (all-or-nothing, never a partial result). -/
theorem C2_batch_failure_all_or_nothing
    (data : List (String × Option PVal)) (e : String)
    (field : String) (raw : Option PVal)
    (hmem : (field, raw) ∈ data) :
    (field, (⟨none, false, raw, 0,
       some ("Bedrock batch validation failed: " ++ e), [], none⟩ : ValidationResult)) ∈
      (validate_dog_data_batch_with_bedrock data (.error e)).2
    ∧ ((validate_dog_data_batch_with_bedrock data (.error e)).2.map Prod.fst =
        data.map Prod.fst)
    ∧ (∀ q ∈ (validate_dog_data_batch_with_bedrock data (.error e)).2,
        q.2.is_valid = false ∧ q.2.value = none
        ∧ q.2.error_message = some ("Bedrock batch validation failed: " ++ e)
        ∧ q.2.error_message ≠ none) := by
  refine ⟨?_, ?_, ?_⟩
  · have := List.mem_map_of_mem
      (fun p : String × Option PVal =>
        (p.1, (⟨none, false, p.2, 0,
          some ("Bedrock batch validation failed: " ++ e), [], none⟩ : ValidationResult)))
      hmem
    simpa [validate_dog_data_batch_with_bedrock] using this
  · simp [validate_dog_data_batch_with_bedrock]
  · intro q hq
    simp only [validate_dog_data_batch_with_bedrock, List.mem_map] at hq
    obtain ⟨p, _, rfl⟩ := hq
    exact ⟨rfl, rfl, rfl, by simp⟩

/-- Membership in the cleaned record: exactly the valid, non-null
entries, carrying their cleaned value. -/
theorem get_cleaned_data_mem (vrs : List (String × ValidationResult))
    (f : String) (v : PVal) :
    (f, v) ∈ get_cleaned_data vrs ↔
      ∃ r, (f, r) ∈ vrs ∧ r.is_valid = true ∧ r.value = some v := by
  simp only [get_cleaned_data, List.mem_filterMap]
  constructor
  · rintro ⟨⟨f', r⟩, hmem, hg⟩
    rcases hv : r.value with _ | w
    · simp [hv] at hg
    · rcases hb : r.is_valid with _ | _
      · simp [hv, hb] at hg
      · simp only [hv, hb, if_true, Option.some.injEq, Prod.mk.injEq] at hg
        obtain ⟨rfl, rfl⟩ := hg
        exact ⟨r, hmem, hb, hv⟩
  · rintro ⟨r, hmem, hb, hv⟩
    exact ⟨(f, r), hmem, by simp [hv, hb]⟩

/-- Filtering to the valid, non-null entries first does not change the
cleaned record (idempotence of the cleaning filter). -/
theorem get_cleaned_data_idem (vrs : List (String × ValidationResult)) :
    get_cleaned_data
      (vrs.filter (fun p => p.2.is_valid && p.2.value.isSome)) =
      get_cleaned_data vrs := by
  induction vrs with
  | nil => rfl
  | cons p t ih =>
    rcases hv : p.2.value with _ | w
    · simpa [get_cleaned_data, List.filterMap_cons, List.filter_cons, hv] using ih
    · rcases hb : p.2.is_valid with _ | _
      · simpa [get_cleaned_data, List.filterMap_cons, List.filter_cons, hv, hb] using ih
      · simpa [get_cleaned_data, List.filterMap_cons, List.filter_cons, hv, hb] using ih

/-- C3: the cleaned record contains exactly the valid, non-null entries;
under key uniqueness an invalid field is absent from the output; and the
filter is idempotent. -/
theorem C3_get_cleaned_data_exact
    (vrs : List (String × ValidationResult))
    (hnd : (vrs.map Prod.fst).Nodup) :
    (∀ f v, (f, v) ∈ get_cleaned_data vrs ↔
        ∃ r, (f, r) ∈ vrs ∧ r.is_valid = true ∧ r.value = some v)
    ∧ (∀ f r, (f, r) ∈ vrs → ¬(r.is_valid = true ∧ r.value.isSome) →
        ∀ v, (f, v) ∉ get_cleaned_data vrs)
    ∧ get_cleaned_data
        (vrs.filter (fun p => p.2.is_valid && p.2.value.isSome)) =
        get_cleaned_data vrs := by
  refine ⟨get_cleaned_data_mem vrs, ?_, get_cleaned_data_idem vrs⟩
  intro f r hmem hbad v hin
  obtain ⟨r', hmem', hb', hv'⟩ := (get_cleaned_data_mem vrs f v).mp hin
  have hrr : r = r' := assoc_value_unique vrs hnd hmem hmem'
  exact hbad ⟨hrr ▸ hb', by simp [hrr, hv']⟩

/-- After `n` throttled attempts starting at `attempt = a`, a successful
attempt returns its reply; the sleeps are the backoff delays of the
throttled attempts in order. -/
theorem callBedrockLoop_ok (outcomes : Nat → BedrockOutcome) (r : String) :
    ∀ (n a fuel : Nat), (∀ i, i < n → outcomes (a + i) = .throttled) →
      outcomes (a + n) = .success r → n < fuel →
      callBedrockLoop outcomes a fuel =
        (.ok r, (List.range n).map (fun i => backoffDelay (a + i))) := by
  intro n
  induction n with
  | zero =>
    intro a fuel _ hs hlt
    obtain ⟨fuel', rfl⟩ := Nat.exists_eq_succ_of_ne_zero (Nat.pos_iff_ne_zero.mp hlt)
    simp only [callBedrockLoop, Nat.add_zero] at *
    rw [hs]; rfl
  | succ n ih =>
    intro a fuel h hs hlt
    obtain ⟨fuel', rfl⟩ := Nat.exists_eq_succ_of_ne_zero
      (Nat.pos_iff_ne_zero.mp (Nat.lt_of_le_of_lt (Nat.zero_le _) hlt))
    have h0 : outcomes a = .throttled := by simpa using h 0 (Nat.succ_pos n)
    have hrec := ih (a + 1) fuel'
      (fun i hi => by
        have := h (i + 1) (Nat.succ_lt_succ hi)
        simpa [Nat.add_assoc, Nat.add_comm 1 i] using this)
      (by simpa [Nat.add_assoc, Nat.add_comm 1 n] using hs)
      (Nat.lt_of_succ_lt_succ hlt)
    have hl : backoffDelay a :: (List.range n).map (fun i => backoffDelay (a + 1 + i)) =
        (List.range (n + 1)).map (fun i => backoffDelay (a + i)) := by
      rw [List.range_succ_eq_map, List.map_cons, List.map_map]
      refine congrArg₂ _ (by simp) ?_
      exact (List.map_congr_left (fun i _ => by
        simp [Function.comp, Nat.add_assoc, Nat.add_comm 1 i]))
    simp only [callBedrockLoop, h0]
    rw [hrec, hl]

/-- After `n` throttled attempts, a non-throttling failure propagates
immediately as the call's error. -/
theorem callBedrockLoop_failure (outcomes : Nat → BedrockOutcome) (e : String) :
    ∀ (n a fuel : Nat), (∀ i, i < n → outcomes (a + i) = .throttled) →
      outcomes (a + n) = .failure e → n < fuel →
      callBedrockLoop outcomes a fuel =
        (.error e, (List.range n).map (fun i => backoffDelay (a + i))) := by
  intro n
  induction n with
  | zero =>
    intro a fuel _ hs hlt
    obtain ⟨fuel', rfl⟩ := Nat.exists_eq_succ_of_ne_zero (Nat.pos_iff_ne_zero.mp hlt)
    simp only [callBedrockLoop, Nat.add_zero] at *
    rw [hs]; rfl
  | succ n ih =>
    intro a fuel h hs hlt
    obtain ⟨fuel', rfl⟩ := Nat.exists_eq_succ_of_ne_zero
      (Nat.pos_iff_ne_zero.mp (Nat.lt_of_le_of_lt (Nat.zero_le _) hlt))
    have h0 : outcomes a = .throttled := by simpa using h 0 (Nat.succ_pos n)
    have hrec := ih (a + 1) fuel'
      (fun i hi => by
        have := h (i + 1) (Nat.succ_lt_succ hi)
        simpa [Nat.add_assoc, Nat.add_comm 1 i] using this)
      (by simpa [Nat.add_assoc, Nat.add_comm 1 n] using hs)
      (Nat.lt_of_succ_lt_succ hlt)
    have hl : backoffDelay a :: (List.range n).map (fun i => backoffDelay (a + 1 + i)) =
        (List.range (n + 1)).map (fun i => backoffDelay (a + i)) := by
      rw [List.range_succ_eq_map, List.map_cons, List.map_map]
      refine congrArg₂ _ (by simp) ?_
      exact (List.map_congr_left (fun i _ => by
        simp [Function.comp, Nat.add_assoc, Nat.add_comm 1 i]))
    simp only [callBedrockLoop, h0]
    rw [hrec, hl]

/-- If every attempt in the budget is throttled, the loop raises the
terminal throttling error after sleeping once per attempt. -/
theorem callBedrockLoop_exhausted (outcomes : Nat → BedrockOutcome) :
    ∀ (fuel a : Nat), (∀ i, i < fuel → outcomes (a + i) = .throttled) →
      callBedrockLoop outcomes a fuel =
        (.error throttlingExceededMsg,
         (List.range fuel).map (fun i => backoffDelay (a + i))) := by
  intro fuel
  induction fuel with
  | zero => intro a _; rfl
  | succ fuel ih =>
    intro a h
    have h0 : outcomes a = .throttled := by simpa using h 0 (Nat.succ_pos fuel)
    have hrec := ih (a + 1) (fun i hi => by
      have := h (i + 1) (Nat.succ_lt_succ hi)
      simpa [Nat.add_assoc, Nat.add_comm 1 i] using this)
    have hl : backoffDelay a :: (List.range fuel).map (fun i => backoffDelay (a + 1 + i)) =
        (List.range (fuel + 1)).map (fun i => backoffDelay (a + i)) := by
      rw [List.range_succ_eq_map, List.map_cons, List.map_map]
      refine congrArg₂ _ (by simp) ?_
      exact (List.map_congr_left (fun i _ => by
        simp [Function.comp, Nat.add_assoc, Nat.add_comm 1 i]))
    simp only [callBedrockLoop, h0]
    rw [hrec, hl]

/-- The backoff delay `0.5 * 2 ^ attempt` is strictly increasing. -/
theorem backoffDelay_strictMono {i j : Nat} (h : i < j) :
    backoffDelay i < backoffDelay j := by
  unfold backoffDelay
  have h2 : (2 : ℚ) ^ i < 2 ^ j := by
    exact pow_lt_pow_right₀ (by norm_num) h
  nlinarith

/-- C4: the retry wrapper sleeps `0.5 * 2 ^ attempt` seconds on each
throttled attempt with strictly increasing delays, returns the reply of
the first successful attempt, propagates a non-throttling failure
immediately, and raises a terminal throttling error when all
`max_retries` attempts (default 5) are throttled. -/
theorem C4_retry_backoff (outcomes : Nat → BedrockOutcome)
    (max_retries N k : Nat) (r e : String) :
    defaultMaxRetries = 5
    ∧ ((∀ i, i < N → outcomes i = .throttled) → outcomes N = .success r →
        N < max_retries →
        call_bedrock_converse outcomes max_retries =
          (.ok r, (List.range N).map backoffDelay)
        ∧ ((List.range N).map backoffDelay).Pairwise (· < ·))
    ∧ ((∀ i, i < k → outcomes i = .throttled) → outcomes k = .failure e →
        k < max_retries →
        call_bedrock_converse outcomes max_retries =
          (.error e, (List.range k).map backoffDelay))
    ∧ ((∀ i, i < max_retries → outcomes i = .throttled) →
        call_bedrock_converse outcomes max_retries =
          (.error throttlingExceededMsg,
           (List.range max_retries).map backoffDelay)) := by
  refine ⟨rfl, ?_, ?_, ?_⟩
  · intro h hs hlt
    constructor
    · have := callBedrockLoop_ok outcomes r N 0 max_retries
        (fun i hi => by simpa using h i hi) (by simpa using hs) hlt
      simpa [call_bedrock_converse] using this
    · exact (List.pairwise_lt_range N).map backoffDelay
        (fun _ _ hij => backoffDelay_strictMono hij)
  · intro h hf hlt
    have := callBedrockLoop_failure outcomes e k 0 max_retries
      (fun i hi => by simpa using h i hi) (by simpa using hf) hlt
    simpa [call_bedrock_converse] using this
  · intro h
    have := callBedrockLoop_exhausted outcomes max_retries 0
      (fun i hi => by simpa using h i hi)
    simpa [call_bedrock_converse] using this

/-- Dropping leading whitespace is the identity when the string begins
with a non-whitespace block. -/
theorem dropWhile_isWs_of_head (l₁ l₂ : List Char) (hne : l₁ ≠ [])
    (h : ∀ c ∈ l₁, isWs c = false) :
    (l₁ ++ l₂).dropWhile isWs = l₁ ++ l₂ := by
  cases l₁ with
  | nil => exact absurd rfl hne
  | cons a t =>
    simp only [List.cons_append, List.dropWhile_cons, h a (List.mem_cons_self a t)]
    simp

/-- `pyStrip` is the identity on a string with non-whitespace affixes. -/
theorem pyStrip_affix (l₁ m l₂ : List Char) (hne1 : l₁ ≠ []) (hne2 : l₂ ≠ [])
    (h1 : ∀ c ∈ l₁, isWs c = false) (h2 : ∀ c ∈ l₂, isWs c = false) :
    pyStrip (l₁ ++ m ++ l₂) = l₁ ++ m ++ l₂ := by
  have hA : ((l₁ ++ m ++ l₂).dropWhile isWs) = l₁ ++ m ++ l₂ := by
    rw [List.append_assoc]
    exact dropWhile_isWs_of_head l₁ (m ++ l₂) hne1 h1
  have hne2r : l₂.reverse ≠ [] := by
    intro h; apply hne2; simpa using congrArg List.reverse h
  have hB : ((l₁ ++ m ++ l₂).reverse.dropWhile isWs) = (l₁ ++ m ++ l₂).reverse := by
    rw [List.reverse_append]
    exact dropWhile_isWs_of_head l₂.reverse (l₁ ++ m).reverse hne2r
      (fun c hc => h2 c (List.mem_reverse.mp hc))
  unfold pyStrip
  rw [hA, hB, List.reverse_reverse]

/-- Prepending a newline does not change the stripped string. -/
theorem pyStrip_cons_nl (x : List Char) : pyStrip ('\n' :: x) = pyStrip x := by
  unfold pyStrip
  rw [List.dropWhile_cons]
  norm_num [isWs]

/-- Appending a newline does not change the stripped string. -/
theorem pyStrip_append_nl (x : List Char) : pyStrip (x ++ ['\n']) = pyStrip x := by
  unfold pyStrip
  rw [List.dropWhile_append]
  rcases h : x.dropWhile isWs with _ | ⟨a, t⟩
  · simp [isWs]
  · simp only [List.isEmpty_cons, Bool.false_eq_true, if_false]
    rw [List.reverse_append, show (['\n'] : List Char).reverse = ['\n'] from rfl,
        List.singleton_append, List.dropWhile_cons]
    norm_num [isWs]

/-- Helper: the fenced reply decomposes around the body. -/
theorem fenced_decomp (body : List Char) :
    fenceJson ++ '\n' :: (body ++ '\n' :: fenceBare) =
      (fenceJson ++ ('\n' :: (body ++ ['\n']))) ++ fenceBare := by
  simp

/-- The `match_user_to_dogs` preprocessing recovers the stripped body of
a code-fenced reply: the fence markers are removed before parsing. -/
theorem matchParseInput_strips_fence (body : List Char) :
    matchParseInput (fenceJson ++ '\n' :: (body ++ '\n' :: fenceBare)) =
      pyStrip body := by
  have hfj : ∀ c ∈ fenceJson, isWs c = false := by decide
  have hfb : ∀ c ∈ fenceBare, isWs c = false := by decide
  rw [fenced_decomp body]
  have e1 : pyStrip ((fenceJson ++ ('\n' :: (body ++ ['\n']))) ++ fenceBare) =
      (fenceJson ++ ('\n' :: (body ++ ['\n']))) ++ fenceBare := by
    rw [show (fenceJson ++ ('\n' :: (body ++ ['\n']))) ++ fenceBare =
        fenceJson ++ ('\n' :: (body ++ ['\n'])) ++ fenceBare from rfl]
    exact pyStrip_affix fenceJson ('\n' :: (body ++ ['\n'])) fenceBare
      (by decide) (by decide) hfj hfb
  have e2 : startsWithL fenceJson
      ((fenceJson ++ ('\n' :: (body ++ ['\n']))) ++ fenceBare) = true := by
    unfold startsWithL
    rw [List.append_assoc, List.take_left]
    exact beq_self_eq_true _
  have e3 : ((fenceJson ++ ('\n' :: (body ++ ['\n']))) ++ fenceBare).drop 7 =
      ('\n' :: (body ++ ['\n'])) ++ fenceBare := by
    rw [List.append_assoc, show (7 : Nat) = fenceJson.length from rfl, List.drop_left]
  have e4 : endsWithL fenceBare (('\n' :: (body ++ ['\n'])) ++ fenceBare) = true := by
    unfold endsWithL
    rw [List.reverse_append,
        show fenceBare.length = fenceBare.reverse.length from by simp, List.take_left]
    exact beq_self_eq_true _
  have e5 : dropRightL 3 (('\n' :: (body ++ ['\n'])) ++ fenceBare) =
      '\n' :: (body ++ ['\n']) := by
    unfold dropRightL
    rw [List.length_append, show fenceBare.length = 3 from rfl,
        Nat.add_sub_cancel, List.take_left]
  have e6 : pyStrip ('\n' :: (body ++ ['\n'])) = pyStrip body := by
    rw [pyStrip_cons_nl, pyStrip_append_nl]
  simp only [matchParseInput, e1, e2, if_true, e3, e4, e5, e6]


/-- C6 counterexample: in the weight and batch validation call paths the
reply text is handed to the JSON parser unchanged, so a code-fenced but
otherwise well-formed JSON reply still begins (and ends) with the fence
markers when it reaches the parser — the fences are not stripped. -/
theorem C6_counterexample :
    weightParseInput fencedNullReply = fencedNullReply
    ∧ batchParseInput fencedNullReply = fencedNullReply
    ∧ startsWithL fenceBare (weightParseInput fencedNullReply) = true
    ∧ endsWithL fenceBare (batchParseInput fencedNullReply) = true := by
  exact ⟨rfl, rfl, by decide, by decide⟩

/-- C6 (amended): only the `match_user_to_dogs` reply path strips the
Markdown code fences before parsing — there it recovers the stripped
body of any fenced reply — while the per-field and batch validators pass
the reply text to the parser unchanged. -/
theorem C6_fence_handling (body content : List Char) :
    matchParseInput (fenceJson ++ '\n' :: (body ++ '\n' :: fenceBare)) =
      pyStrip body
    ∧ weightParseInput content = content
    ∧ batchParseInput content = content :=
  ⟨matchParseInput_strips_fence body, rfl, rfl⟩

/-- C5: after batch validation the species result's `is_valid` flag
gates the submission: invalid species yields the 400-equivalent
rejection, valid species proceeds with the cleaned record, any other
invalid field is merely omitted from the cleaned record, and in the
persisting endpoint a species rejection happens with an empty effect
trace — before any persistence or storage side effect. -/
theorem C5_species_gate_fatal
    (dog_data : List (String × Option PVal))
    (env : Except String (String → Option FieldReply))
    (p : String × ValidationResult)
    (hfind : (validate_dog_data_batch_with_bedrock dog_data env).2.find?
        (fun q => q.1 == "species") = some p) :
    (p.2.is_valid = false →
        test_validate_dog_data dog_data env =
          .invalidBreed p.2.original_value p.2.error_message)
    ∧ (p.2.is_valid = true →
        test_validate_dog_data dog_data env =
          .ok (get_cleaned_data (validate_dog_data_batch_with_bedrock dog_data env).2))
    ∧ (((validate_dog_data_batch_with_bedrock dog_data env).2.map Prod.fst).Nodup →
        ∀ f r, (f, r) ∈ (validate_dog_data_batch_with_bedrock dog_data env).2 →
          r.is_valid = false →
          ∀ v, (f, v) ∉ get_cleaned_data (validate_dog_data_batch_with_bedrock dog_data env).2)
    ∧ (∀ (dog_id : String) (breed_id : Option Int)
         (name shelter_name city state species shelter_entry_date description
          birthday weight color : Option String)
         (fernet : Option FernetScheme) (ienv : ImageEnv),
        speciesGateRejects species = true →
        create_dog_with_image dog_id breed_id name shelter_name city state species
            shelter_entry_date description birthday weight color fernet ienv =
          (.invalidBreed species, [])) := by
  refine ⟨?_, ?_, ?_, ?_⟩
  · intro hval
    simp only [test_validate_dog_data, hfind, hval, Bool.false_eq_true, if_false]
  · intro hval
    simp only [test_validate_dog_data, hfind, hval, if_true]
  · intro hnd f r hmem hval v hin
    obtain ⟨r', hmem', hb', hv'⟩ :=
      (get_cleaned_data_mem (validate_dog_data_batch_with_bedrock dog_data env).2 f v).mp hin
    have hrr : r = r' := assoc_value_unique _ hnd hmem hmem'
    rw [← hrr] at hb'
    rw [hval] at hb'
    cases hb'
  · intro dog_id breed_id name shelter_name city state species shelter_entry_date
      description birthday weight color fernet ienv h
    simp [create_dog_with_image, h]

/-- C7: an existing engagement action for the (identity, record) pair
makes both a repeated action and the opposite action fail with a 400
conflict; the error return carries no new database state, so neither
counter is mutated. -/
theorem C7_conflict_rejected
    (db : EngDb) (dog_id user_id : String) (dog : DogRow) (w : UserWagRow)
    (hdog : db.dogs.find? (fun d => d.dog_id == dog_id) = some dog)
    (huser : user_id ≠ "")
    (hfind : db.user_wags.find?
        (fun x => x.user_id == user_id && x.dog_id == dog_id) = some w) :
    (w.type = "wag" →
        wag_dog dog_id (some user_id) db =
          .error ⟨400, "You have already wagged this dog."⟩
        ∧ growl_dog dog_id (some user_id) db =
          .error ⟨400,
            "You have already wagged this dog. You cannot growl a dog you\x27ve wagged."⟩)
    ∧ (w.type = "growl" →
        growl_dog dog_id (some user_id) db =
          .error ⟨400, "You have already growled this dog."⟩
        ∧ wag_dog dog_id (some user_id) db =
          .error ⟨400,
            "You have already growled this dog. You cannot wag a dog you\x27ve growled."⟩) := by
  constructor
  · intro hw
    constructor
    · simp [wag_dog, hdog, hfind, huser, hw]
    · simp [growl_dog, hdog, hfind, huser, hw]
  · intro hg
    constructor
    · simp [growl_dog, hdog, hfind, huser, hg]
    · simp [wag_dog, hdog, hfind, huser, hg]

/-- `find?` over a map that preserves the searched column. -/
theorem find?_dogRow_map (l : List DogRow) (dog_id : String) (f : DogRow → DogRow)
    (hf : ∀ d, (f d).dog_id = d.dog_id) :
    (l.map f).find? (fun d => d.dog_id == dog_id) =
      (l.find? (fun d => d.dog_id == dog_id)).map f := by
  have hpf : ((fun d : DogRow => d.dog_id == dog_id) ∘ f) =
      (fun d : DogRow => d.dog_id == dog_id) := by
    funext d; simp [Function.comp, hf d]
  rw [List.find?_map, hpf]

/-- C8: from the no-action state a wag increments the record's wag
counter, a subsequent unwag by the same identity removes the action row
and floors the counter back to its pre-wag value, and a fresh wag then
succeeds again. -/
theorem C8_wag_unwag_roundtrip
    (db : EngDb) (dog_id user_id : String) (w g : Int)
    (hdog : db.dogs.find? (fun d => d.dog_id == dog_id) = some ⟨dog_id, w, g⟩)
    (huser : user_id ≠ "")
    (hnone : ∀ x ∈ db.user_wags, ¬(x.user_id = user_id ∧ x.dog_id = dog_id))
    (hw : 0 ≤ w) :
    ∃ db1 db2 db3 resp3,
      wag_dog dog_id (some user_id) db =
        .ok (db1, ⟨"Wag given to " ++ dog_id, w + 1, g⟩)
      ∧ unwag_dog dog_id (some user_id) db1 =
        .ok (db2, ⟨"Wag removed from " ++ dog_id, w, g⟩)
      ∧ db2.user_wags = db.user_wags
      ∧ db2.dogs.find? (fun d => d.dog_id == dog_id) = some ⟨dog_id, w, g⟩
      ∧ wag_dog dog_id (some user_id) db2 = .ok (db3, resp3)
      ∧ resp3.wags = w + 1 := by
  have hfn : db.user_wags.find?
      (fun x => x.user_id == user_id && x.dog_id == dog_id) = none := by
    rw [List.find?_eq_none]
    intro x hx
    simp only [Bool.and_eq_true, beq_iff_eq]
    exact fun hc => hnone x hx hc
  set fInc : DogRow → DogRow :=
    fun d => if d.dog_id == dog_id then ⟨d.dog_id, d.wags + 1, d.growls⟩ else d with hfInc
  have hfIncId : ∀ d, (fInc d).dog_id = d.dog_id := by
    intro d; by_cases hc : d.dog_id = dog_id <;> simp [hfInc, hc]
  set dogs1 := db.dogs.map fInc with hdogs1
  set row : UserWagRow := ⟨user_id, dog_id, "wag"⟩ with hrow
  set uw1 := db.user_wags ++ [row] with huw1
  have h1 : wag_dog dog_id (some user_id) db =
      .ok (⟨dogs1, uw1⟩, ⟨"Wag given to " ++ dog_id, w + 1, g⟩) := by
    simp [wag_dog, hdog, hfn, huser, hdogs1, hfInc, huw1, hrow]
  have hfind1 : dogs1.find? (fun d => d.dog_id == dog_id) =
      some ⟨dog_id, w + 1, g⟩ := by
    rw [hdogs1, find?_dogRow_map db.dogs dog_id fInc hfIncId, hdog]
    simp [hfInc]
  set q : UserWagRow → Bool :=
    fun x => some x.user_id == some user_id && x.dog_id == dog_id && x.type == "wag"
    with hq
  have hq_pre : ∀ x ∈ db.user_wags, q x = false := by
    intro x hx
    apply Bool.eq_false_iff.mpr
    intro hc
    simp only [hq, Bool.and_eq_true, beq_iff_eq, Option.some.injEq] at hc
    exact hnone x hx ⟨hc.1.1, hc.1.2⟩
  have hq_row : q row = true := by simp [hq, hrow]
  have hfq : uw1.find? q = some row := by
    rw [huw1, List.find?_append,
        List.find?_eq_none.mpr (fun x hx => by rw [hq_pre x hx]; exact Bool.false_ne_true)]
    simp [hq_row]
  have her : uw1.eraseP q = db.user_wags := by
    rw [huw1, List.eraseP_append_right _
        (fun b hb => by rw [hq_pre b hb]; exact Bool.false_ne_true)]
    simp [List.eraseP_cons, hq_row]
  have hmax : max 0 (w + 1 - 1) = w := by omega
  set fSet : DogRow → DogRow :=
    fun d => if d.dog_id == dog_id then ⟨d.dog_id, max 0 (w + 1 - 1), d.growls⟩ else d
    with hfSet
  have hfSetId : ∀ d, (fSet d).dog_id = d.dog_id := by
    intro d; by_cases hc : d.dog_id = dog_id <;> simp [hfSet, hc]
  set dogs2 := dogs1.map fSet with hdogs2
  have h2 : unwag_dog dog_id (some user_id) (⟨dogs1, uw1⟩ : EngDb) =
      .ok (⟨dogs2, db.user_wags⟩, ⟨"Wag removed from " ++ dog_id, w, g⟩) := by
    have hres : unwag_dog dog_id (some user_id) (⟨dogs1, uw1⟩ : EngDb) =
        .ok (⟨dogs2, db.user_wags⟩,
             ⟨"Wag removed from " ++ dog_id, max 0 (w + 1 - 1), g⟩) := by
      simp only [unwag_dog, hfind1]
      rw [show ((⟨dogs1, uw1⟩ : EngDb).user_wags.find?
          (fun x => some x.user_id == some user_id && x.dog_id == dog_id
            && x.type == "wag")) = some row from hfq]
      rw [show ((⟨dogs1, uw1⟩ : EngDb).user_wags.eraseP
          (fun x => some x.user_id == some user_id && x.dog_id == dog_id
            && x.type == "wag")) = db.user_wags from her]
    rw [hres, hmax]
  have hfind2 : dogs2.find? (fun d => d.dog_id == dog_id) =
      some ⟨dog_id, w, g⟩ := by
    rw [hdogs2, find?_dogRow_map dogs1 dog_id fSet hfSetId, hfind1]
    simp [hfSet, hmax, hw]
  have h3 : wag_dog dog_id (some user_id) (⟨dogs2, db.user_wags⟩ : EngDb) =
      .ok (⟨dogs2.map fInc, db.user_wags ++ [row]⟩,
           ⟨"Wag given to " ++ dog_id, w + 1, g⟩) := by
    simp [wag_dog, hfind2, hfn, huser, hfInc, hrow]
  exact ⟨⟨dogs1, uw1⟩, ⟨dogs2, db.user_wags⟩,
         ⟨dogs2.map fInc, db.user_wags ++ [row]⟩,
         ⟨"Wag given to " ++ dog_id, w + 1, g⟩,
         h1, h2, rfl, hfind2, h3, rfl⟩

/-- A key bound only to `None` in the raw data never appears in the
simple cleaned record. -/
theorem lookupStr_simpleCleaned_none (dog_data : List (String × Option String))
    (k : String) (h : ∀ v, (k, v) ∈ dog_data → v = none) :
    lookupStr (simpleCleaned dog_data) k = none := by
  have hfind : (simpleCleaned dog_data).find? (fun p => p.1 == k) = none := by
    rw [List.find?_eq_none]
    rintro ⟨pk, pv⟩ hp
    simp only [simpleCleaned, List.mem_filterMap] at hp
    obtain ⟨⟨qk, qv⟩, hq, hg⟩ := hp
    rcases qv with _ | v
    · simp at hg
    · by_cases hv : v = ""
      · simp [hv] at hg
      · simp only [hv, if_neg, Option.some.injEq, Prod.mk.injEq] at hg
        obtain ⟨rfl, rfl⟩ := hg
        simp only [beq_iff_eq]
        intro hk
        exact absurd (h (some pv) (hk ▸ hq)) (by simp)
  unfold lookupStr
  rw [hfind]
  rfl

/-- C9 counterexample: a whitespace-only species string is non-empty
before trimming, so the code fires the Invalid-breed 400 rejection even
though the species is empty after lowercasing and trimming — the claim's
"non-empty after lowercasing and trimming" condition is wrong. -/
theorem C9_counterexample :
    speciesGateRejects (some " ") = true
    ∧ pyLowerStrip " " = ""
    ∧ create_dog_with_image "d1" none none none none none (some " ") none none
        none none none none ⟨true, none, none⟩ =
      (.invalidBreed (some " "), [])
    ∧ create_dog_with_generated_image "d1" none none none none none (some " ")
        none none none none none none ⟨true, none, none⟩ =
      (.invalidBreed (some " "), []) := by
  refine ⟨by decide, by decide, ?_, ?_⟩
  · rfl
  · rfl

/-- The species gate fires exactly on a truthy species whose lowered,
stripped form is not an accepted Labrador name. -/
theorem speciesGateRejects_iff (t : String) :
    speciesGateRejects (some t) = true ↔
      (t ≠ "" ∧ pyLowerStrip t ∉ labradorNames) := by
  simp [speciesGateRejects, List.contains, List.elem_eq_mem]

/-- C9 (amended): in both create endpoints the Invalid-breed 400
rejection fires, with an empty effect trace, exactly when the submitted
species is non-null and non-empty (before any trimming) and its
lowercased, trimmed form is not an accepted Labrador name; an omitted
species passes the gate and the created record carries no species
value. -/
theorem C9_species_gate_iff
    (dog_id : String) (breed_id : Option Int)
    (name shelter_name city state species shelter_entry_date description
     birthday weight color : Option String)
    (fernet : Option FernetScheme) (ienv : ImageEnv) (genv : GenImageEnv) :
    (speciesGateRejects species = true ↔
       ∃ s, species = some s ∧ s ≠ "" ∧ pyLowerStrip s ∉ labradorNames)
    ∧ (speciesGateRejects species = true →
        create_dog_with_image dog_id breed_id name shelter_name city state species
            shelter_entry_date description birthday weight color fernet ienv =
          (.invalidBreed species, [])
        ∧ create_dog_with_generated_image dog_id breed_id name shelter_name city
            state species shelter_entry_date description birthday weight color
            fernet genv =
          (.invalidBreed species, []))
    ∧ (speciesGateRejects species = false →
        (∀ o, (create_dog_with_image dog_id breed_id name shelter_name city state
            species shelter_entry_date description birthday weight color
            fernet ienv).1 ≠ .invalidBreed o)
        ∧ (∀ o, (create_dog_with_generated_image dog_id breed_id name shelter_name
            city state species shelter_entry_date description birthday weight color
            fernet genv).1 ≠ .invalidBreed o))
    ∧ (species = none →
        speciesGateRejects species = false
        ∧ (ienv.rekognition_is_labrador = true →
            ∃ dog cleaned,
              create_dog_with_image dog_id breed_id name shelter_name city state
                  species shelter_entry_date description birthday weight color
                  fernet ienv =
                (.created dog_id cleaned,
                 [.s3Upload (dog_id ++ "/original.jpg"),
                  .s3Upload (dog_id ++ "/resized_400.png"),
                  .s3Upload (dog_id ++ "/thumbnail_50.png"),
                  .dbAdd dog, .snsPublish "dog_created"])
              ∧ dog.species = none)) := by
  refine ⟨?_, ?_, ?_, ?_⟩
  · cases species with
    | none => simp [speciesGateRejects]
    | some s =>
      rw [speciesGateRejects_iff s]
      constructor
      · rintro ⟨hne, hnm⟩; exact ⟨s, rfl, hne, hnm⟩
      · rintro ⟨t, ht, hne, hnm⟩; cases ht; exact ⟨hne, hnm⟩
  · intro h
    constructor
    · simp [create_dog_with_image, h]
    · simp [create_dog_with_generated_image, h]
  · intro h
    constructor
    · intro o
      by_cases hr : ienv.rekognition_is_labrador <;>
        simp [create_dog_with_image, h, hr]
    · intro o
      by_cases hd : genv.decode_ok <;>
        simp [create_dog_with_generated_image, h, hd]
  · rintro rfl
    refine ⟨rfl, fun hr => ?_⟩
    obtain ⟨rek, isent, dsent⟩ := ienv
    simp only at hr
    subst hr
    refine ⟨_, _, rfl, ?_⟩
    show lookupStr (simpleCleaned
      [("name", name), ("shelter_name", shelter_name), ("city", city),
       ("state", state), ("species", none), ("description", description),
       ("color", color), ("weight", weight), ("birthday", birthday),
       ("shelter_entry_date", shelter_entry_date)]) "species" = none
    refine lookupStr_simpleCleaned_none _ "species" ?_
    intro v hv
    simp at hv
    exact hv

/-- C10: name encryption round-trips to the original plaintext whenever
a key is configured; with no key, or an empty name, both operations are
the identity; and a failed decryption returns the stored value
unchanged instead of raising. -/
theorem C10_name_encryption_roundtrip
    (fernet : Option FernetScheme) (f : FernetScheme) (name s : String) :
    decrypt_name fernet (encrypt_name fernet name) = name
    ∧ encrypt_name none name = name
    ∧ decrypt_name none name = name
    ∧ encrypt_name fernet "" = ""
    ∧ decrypt_name fernet "" = ""
    ∧ (f.dec s = none → decrypt_name (some f) s = s) := by
  refine ⟨?_, rfl, rfl, ?_, ?_, ?_⟩
  · cases fernet with
    | none => rfl
    | some fn =>
      by_cases hn : name = ""
      · subst hn; simp [encrypt_name, decrypt_name]
      · simp only [encrypt_name, if_neg hn, decrypt_name]
        rw [if_neg (fn.enc_ne_empty name), fn.dec_enc name]
  · cases fernet <;> simp [encrypt_name]
  · cases fernet <;> simp [decrypt_name]
  · intro hdec
    by_cases hs : s = ""
    · subst hs; simp [decrypt_name]
    · simp [decrypt_name, hs, hdec]

/-- Witness for C2 at a concrete two-field record and failure. -/
theorem C2_witness :
    ("weight", (⟨none, false, none, 0,
       some ("Bedrock batch validation failed: " ++ "boom"), [], none⟩ :
         ValidationResult)) ∈
      (validate_dog_data_batch_with_bedrock
        [("name", some (.vStr "Rex")), ("weight", none)] (.error "boom")).2 :=
  (C2_batch_failure_all_or_nothing
    [("name", some (.vStr "Rex")), ("weight", none)] "boom" "weight" none
    (by simp)).1

/-- Witness for C3 on a concrete mixed result set. -/
theorem C3_witness :
    get_cleaned_data
        (c3SampleResults.filter (fun p => p.2.is_valid && p.2.value.isSome)) =
      get_cleaned_data c3SampleResults :=
  (C3_get_cleaned_data_exact c3SampleResults (by decide)).2.2

/-- Witness for C4: success after two throttles, immediate failure, and
exhaustion, at concrete outcome sequences. -/
theorem C4_witness :
    call_bedrock_converse c4OutcomesA 5 = (.ok "reply", (List.range 2).map backoffDelay)
    ∧ call_bedrock_converse c4OutcomesB 5 =
        (.error "boom", (List.range 0).map backoffDelay)
    ∧ call_bedrock_converse c4OutcomesC 5 =
        (.error throttlingExceededMsg, (List.range 5).map backoffDelay) :=
  ⟨((C4_retry_backoff c4OutcomesA 5 2 0 "reply" "").2.1
      (by decide) (by decide) (by decide)).1,
   (C4_retry_backoff c4OutcomesB 5 0 0 "" "boom").2.2.1
      (by decide) (by decide) (by decide),
   (C4_retry_backoff c4OutcomesC 5 0 0 "" "").2.2.2 (by decide)⟩

/-- Witness for C5: a rejected species at a concrete record, and the
empty effect trace of a concrete gate rejection. -/
theorem C5_witness :
    test_validate_dog_data c5Data (.ok c5Reply) =
      .invalidBreed (some (.vStr "Poodle")) none
    ∧ create_dog_with_image "d1" none none none none none (some "Poodle") none none
        none none none none ⟨true, none, none⟩ =
      (.invalidBreed (some "Poodle"), []) :=
  ⟨(C5_species_gate_fatal c5Data (.ok c5Reply)
      ("species", ⟨none, false, some (.vStr "Poodle"), 0, none, [], some claudeModel⟩)
      (by decide)).1 rfl,
   (C5_species_gate_fatal c5Data (.ok c5Reply)
      ("species", ⟨none, false, some (.vStr "Poodle"), 0, none, [], some claudeModel⟩)
      (by decide)).2.2.2 "d1" none none none none none (some "Poodle") none none
      none none none none ⟨true, none, none⟩ (by decide)⟩

/-- Witness for C7 on a concrete database with an existing wag. -/
theorem C7_witness :
    wag_dog "d1" (some "u1") c7Db =
      .error ⟨400, "You have already wagged this dog."⟩
    ∧ growl_dog "d1" (some "u1") c7Db =
      .error ⟨400,
        "You have already wagged this dog. You cannot growl a dog you\x27ve wagged."⟩ :=
  (C7_conflict_rejected c7Db "d1" "u1" ⟨"d1", 3, 1⟩ ⟨"u1", "d1", "wag"⟩
    (by decide) (by decide) (by decide)).1 rfl

/-- Witness for C8 on a concrete fresh database. -/
theorem C8_witness :
    ∃ db1 db2 db3 resp3,
      wag_dog "d1" (some "u1") c8Db =
        .ok (db1, ⟨"Wag given to " ++ "d1", 0 + 1, 0⟩)
      ∧ unwag_dog "d1" (some "u1") db1 =
        .ok (db2, ⟨"Wag removed from " ++ "d1", 0, 0⟩)
      ∧ db2.user_wags = c8Db.user_wags
      ∧ db2.dogs.find? (fun d => d.dog_id == "d1") = some ⟨"d1", 0, 0⟩
      ∧ wag_dog "d1" (some "u1") db2 = .ok (db3, resp3)
      ∧ resp3.wags = 0 + 1 :=
  C8_wag_unwag_roundtrip c8Db "d1" "u1" 0 0 (by decide) (by decide)
    (by simp [c8Db]) (by decide)

/-- Witness for C9 (amended): the gate fires on "Poodle" with an empty
effect trace and passes on an omitted species. -/
theorem C9_witness :
    create_dog_with_image "d1" none none none none none (some "Poodle") none none
        none none none none ⟨true, none, none⟩ =
      (.invalidBreed (some "Poodle"), [])
    ∧ speciesGateRejects none = false :=
  ⟨((C9_species_gate_iff "d1" none none none none none (some "Poodle") none none
      none none none none ⟨true, none, none⟩ ⟨true, none, none⟩).2.1 (by decide)).1,
   ((C9_species_gate_iff "d1" none none none none none none none none
      none none none none ⟨true, none, none⟩ ⟨true, none, none⟩).2.2.2 rfl).1⟩

/-- Witness for C10 with the toy scheme: a round-trip and an unchanged
value on decryption failure. -/
theorem C10_witness :
    decrypt_name (some toyFernet) (encrypt_name (some toyFernet) "Rex") = "Rex"
    ∧ decrypt_name (some toyFernet) "garbage" = "garbage" :=
  ⟨(C10_name_encryption_roundtrip (some toyFernet) toyFernet "Rex" "garbage").1,
   (C10_name_encryption_roundtrip (some toyFernet) toyFernet "Rex" "garbage").2.2.2.2.2
     (by rfl)⟩
